import Mathlib

/-!
Verification of the QR-attendance backend (`src/app.py`).

The development shallowly embeds the token derivation (SHA-256 over
`session_id ++ ":" ++ window`), the `QRCodeManager` state machine
(`start_session`, `stop_session`, `_ensure_session_is_active`,
`_load_active_session_from_db`, `get_current_token`, `validate_token`),
the relevant HTTP routes, and the attendance check-then-insert of
`scan_qr`.  Machine integers are modelled as `Nat` with explicit
`% 2 ^ 32` where 32-bit overflow matters; wall-clock time is `Nat`
(unix seconds); `expires_at` and token windows are `Int` (Python ints).
-/

set_option maxRecDepth 8000

namespace App

/-! ### SHA-256 (hashlib.sha256 semantics, bytes as `Nat < 256`) -/

/-- Right rotation of a 32-bit word represented as `Nat`. -/
def rotr (n x : Nat) : Nat :=
  ((x >>> n) ||| (x <<< (32 - n))) % 2 ^ 32

def bigSigma0 (x : Nat) : Nat := rotr 2 x ^^^ rotr 13 x ^^^ rotr 22 x

def bigSigma1 (x : Nat) : Nat := rotr 6 x ^^^ rotr 11 x ^^^ rotr 25 x

def smallSigma0 (x : Nat) : Nat := rotr 7 x ^^^ rotr 18 x ^^^ (x >>> 3)

def smallSigma1 (x : Nat) : Nat := rotr 17 x ^^^ rotr 19 x ^^^ (x >>> 10)

def ch (x y z : Nat) : Nat := (x &&& y) ^^^ ((x ^^^ (2 ^ 32 - 1)) &&& z)

def maj (x y z : Nat) : Nat := (x &&& y) ^^^ (x &&& z) ^^^ (y &&& z)

/-- SHA-256 round constants (fractional parts of cube roots of the first
64 primes). -/
def K : List Nat :=
  [1116352408, 1899447441, 3049323471, 3921009573, 961987163, 1508970993,
   2453635748, 2870763221, 3624381080, 310598401, 607225278, 1426881987,
   1925078388, 2162078206, 2614888103, 3248222580, 3835390401, 4022224774,
   264347078, 604807628, 770255983, 1249150122, 1555081692, 1996064986,
   2554220882, 2821834349, 2952996808, 3210313671, 3336571891, 3584528711,
   113926993, 338241895, 666307205, 773529912, 1294757372, 1396182291,
   1695183700, 1986661051, 2177026350, 2456956037, 2730485921, 2820302411,
   3259730800, 3345764771, 3516065817, 3600352804, 4094571909, 275423344,
   430227734, 506948616, 659060556, 883997877, 958139571, 1322822218,
   1537002063, 1747873779, 1955562222, 2024104815, 2227730452, 2361852424,
   2428436474, 2756734187, 3204031479, 3329325298]

/-- SHA-256 initial hash value (fractional parts of square roots of the
first 8 primes). -/
def H0 : List Nat :=
  [1779033703, 3144134277, 1013904242, 2773480762, 1359893119, 2600822924,
   528734635, 1541459225]

/-- Big-endian byte rendering of `n` on `k` bytes. -/
def bytesBE (k n : Nat) : List Nat :=
  (List.range k).map (fun i => (n >>> (8 * (k - 1 - i))) % 256)

/-- SHA-256 padding: append `0x80`, zeros, and the 64-bit big-endian bit
length, reaching a multiple of 64 bytes. -/
def padMessage (msg : List Nat) : List Nat :=
  let L := msg.length
  let zeros := (64 - (L + 9) % 64) % 64
  msg ++ [128] ++ List.replicate zeros 0 ++ bytesBE 8 (8 * L)

/-- Group bytes into big-endian 32-bit words. -/
def toWords : List Nat → List Nat
  | b0 :: b1 :: b2 :: b3 :: rest =>
      (((b0 * 256 + b1) * 256 + b2) * 256 + b3) :: toWords rest
  | _ => []

/-- One extension step of the message schedule; the word list is kept
newest-first. -/
def schedStep (w : List Nat) : List Nat :=
  ((smallSigma1 (w.getD 1 0) + w.getD 6 0 + smallSigma0 (w.getD 14 0)
      + w.getD 15 0) % 2 ^ 32) :: w

def iterSched : Nat → List Nat → List Nat
  | 0, w => w
  | n + 1, w => iterSched n (schedStep w)

/-- The 64-word message schedule of a 16-word block. -/
def schedule (block : List Nat) : List Nat :=
  (iterSched 48 block.reverse).reverse

/-- One SHA-256 compression round on the state `[a,b,c,d,e,f,g,h]`. -/
def round (st : List Nat) (k w : Nat) : List Nat :=
  match st with
  | [a, b, c, d, e, f, g, h] =>
      let t1 := (h + bigSigma1 e + ch e f g + k + w) % 2 ^ 32
      let t2 := (bigSigma0 a + maj a b c) % 2 ^ 32
      [(t1 + t2) % 2 ^ 32, a, b, c, (d + t1) % 2 ^ 32, e, f, g]
  | other => other

/-- Compress one 16-word block into the running hash. -/
def compress (h : List Nat) (block : List Nat) : List Nat :=
  let st := (K.zip (schedule block)).foldl (fun st kw => round st kw.1 kw.2) h
  List.zipWith (fun x y => (x + y) % 2 ^ 32) h st

/-- Split a padded byte list into 64-byte blocks; the fuel argument
bounds the number of blocks so the recursion is structural. -/
def splitBlocksAux : Nat → List Nat → List (List Nat)
  | 0, _ => []
  | _, [] => []
  | fuel + 1, b :: bs => (b :: bs).take 64 :: splitBlocksAux fuel ((b :: bs).drop 64)

/-- Split a padded byte list into 64-byte blocks. -/
def splitBlocks (l : List Nat) : List (List Nat) :=
  splitBlocksAux l.length l

/-- SHA-256 digest of a byte list, as eight 32-bit words. -/
def sha256Words (msg : List Nat) : List Nat :=
  (splitBlocks (padMessage msg)).foldl (fun h blk => compress h (toWords blk)) H0

def hexDigit (n : Nat) : Char :=
  Char.ofNat (if n < 10 then 48 + n else 87 + n)

/-- Lowercase hex rendering of a 32-bit word on 8 digits. -/
def word32hex (w : Nat) : String :=
  String.mk ((List.range 8).map (fun i => hexDigit ((w >>> (4 * (7 - i))) % 16)))

/-- `hashlib.sha256(...).hexdigest()`: 64 lowercase hex characters. -/
def sha256hex (msg : List Nat) : String :=
  String.join ((sha256Words msg).map word32hex)

/-! ### UTF-8 encoding (Python `str.encode()`) -/

/-- UTF-8 encoding of one unicode scalar value. -/
def utf8EncodeCodepoint (c : Nat) : List Nat :=
  if c < 128 then [c]
  else if c < 2048 then [192 + c / 64, 128 + c % 64]
  else if c < 65536 then [224 + c / 4096, 128 + c / 64 % 64, 128 + c % 64]
  else [240 + c / 262144, 128 + c / 4096 % 64, 128 + c / 64 % 64, 128 + c % 64]

/-- The UTF-8 bytes of a string. -/
def strBytes (s : String) : List Nat :=
  (s.data.map (fun c => utf8EncodeCodepoint c.toNat)).flatten

/-! ### Token derivation (`get_current_token` / `validate_token` hash) -/

/-- `hashlib.sha256(f"{session_id}:{token_window}".encode()).hexdigest()[:16]`.
The window is a Python int, so it is rendered in decimal with a leading
minus sign when negative. -/
def deriveToken (sid : String) (w : Int) : String :=
  (sha256hex (strBytes (sid ++ ":" ++ toString w))).take 16

example : sha256hex (strBytes "abc:100") =
    "0cf5f9f747568d2c6f521824dcbe610bee2c5a594cc01d3afe0db1e0a3d3115d" := by
  decide

example : sha256hex [] =
    "e3b0c44298fc1c149afbf4c8996fb92427ae41e4649b934ca495991b7852b855" := by
  decide

example : sha256hex (strBytes (String.mk (List.replicate 70 'a'))) =
    "6bd5e5034855a11241f0dee8fc72850ffd9955b28347a86428b5fa19119f6ad0" := by
  decide

example : deriveToken "abc" (-1) = "8ba1832005820883" := by decide

/-! ### Data model of `QRCodeManager` and the `qr_sessions` table -/

/-- The in-memory `active_session` dict (when non-empty). -/
structure Session where
  session_id : String
  class_id : Nat
  teacher_id : String
  expires_at : Int
deriving DecidableEq, Repr

/-- One row of the `qr_sessions` table.  The store list is kept in
creation order (oldest first), standing in for `created_at`. -/
structure Row where
  session_id : String
  class_id : Nat
  teacher_id : String
  expires_at : Int
  is_active : Bool
deriving DecidableEq, Repr

def Row.toSession (r : Row) : Session :=
  ⟨r.session_id, r.class_id, r.teacher_id, r.expires_at⟩

/-- The manager's shared state: persistent store plus in-memory cache.
`cache = none` models the empty `active_session` dict. -/
structure MgrState where
  store : List Row
  cache : Option Session
deriving DecidableEq, Repr

def initState : MgrState := ⟨[], none⟩

/-- `SELECT ... WHERE is_active = 1 ORDER BY created_at DESC LIMIT 1`. -/
def mostRecentActive (store : List Row) : Option Row :=
  store.reverse.find? (fun r => r.is_active)

/-- `UPDATE qr_sessions SET is_active = 0 WHERE session_id = ?`. -/
def deactivateSid (sid : String) (store : List Row) : List Row :=
  store.map (fun r => if r.session_id = sid then { r with is_active := false } else r)

/-- `UPDATE qr_sessions SET is_active = 0 WHERE teacher_id = ? AND is_active = 1`. -/
def deactivateForTeacher (tid : String) (store : List Row) : List Row :=
  store.map (fun r =>
    if r.teacher_id = tid ∧ r.is_active then { r with is_active := false } else r)

/-- `QRCodeManager._load_active_session_from_db` at time `t`.  When the
fetched row is expired it is deactivated in the store but the cache is
left untouched; when no active row exists the cache is also untouched. -/
def loadActiveSessionFromDb (t : Nat) (st : MgrState) : MgrState :=
  match mostRecentActive st.store with
  | none => st
  | some row =>
      if (t : Int) < row.expires_at then
        { st with cache := some row.toSession }
      else
        { st with store := deactivateSid row.session_id st.store }

/-- `QRCodeManager.start_session` at time `t`, with the fresh uuid
passed in as `sid`. -/
def startSession (class_id : Nat) (teacher_id : String) (duration_minutes : Int)
    (sid : String) (t : Nat) (st : MgrState) : MgrState × Session :=
  let expires : Int := (t : Int) + duration_minutes * 60
  let sess : Session := ⟨sid, class_id, teacher_id, expires⟩
  ({ store := deactivateForTeacher teacher_id st.store
        ++ [⟨sid, class_id, teacher_id, expires, true⟩],
     cache := some sess }, sess)

/-- `QRCodeManager.stop_session`; always returns `True`. -/
def stopSession (st : MgrState) : MgrState × Bool :=
  match st.cache with
  | some s => ({ store := deactivateSid s.session_id st.store, cache := none }, true)
  | none => ({ st with cache := none }, true)

/-- `QRCodeManager._ensure_session_is_active` at time `t`: reload when
the cache is empty or `utcnow() >= expires_at`. -/
def ensureSessionIsActive (t : Nat) (st : MgrState) : MgrState :=
  match st.cache with
  | none => loadActiveSessionFromDb t st
  | some s => if s.expires_at ≤ (t : Int) then loadActiveSessionFromDb t st else st

/-- `int(time.time()) // TOKEN_WINDOW_SECONDS`; the unix clock is
nonnegative, so Python floor division is `Nat` division. -/
def window (t : Nat) : Int := (t / 30 : Nat)

/-- The dict returned by `get_current_token`. -/
structure TokenData where
  token : String
  session_id : String
deriving DecidableEq, Repr

/-- `QRCodeManager.get_current_token` at time `t`. -/
def getCurrentToken (t : Nat) (st : MgrState) : MgrState × Option TokenData :=
  let st' := ensureSessionIsActive t st
  match st'.cache with
  | none => (st', none)
  | some s => (st', some ⟨deriveToken s.session_id (window t), s.session_id⟩)

/-- `QRCodeManager.validate_token` at time `t`: accept when the token
matches the derived token at window offset `0` or `-1`. -/
def validateToken (t : Nat) (token session_id : String) (st : MgrState) :
    MgrState × Bool :=
  let st' := ensureSessionIsActive t st
  match st'.cache with
  | none => (st', false)
  | some s =>
      if s.session_id ≠ session_id then (st', false)
      else
        (st', (token == deriveToken session_id (window t))
           || (token == deriveToken session_id (window t - 1)))

/-! ### Routes on top of the manager -/

/-- The JSON body served by `/api/qr-token`; `expires_at` is added by
the route only when the cached session carries one. -/
structure QrTokenResp where
  token : String
  session_id : String
  expires_at : Option Int
deriving DecidableEq, Repr

/-- Route `get_qr_token` (`/api/qr-token`). -/
def routeGetQrToken (t : Nat) (st : MgrState) : MgrState × Option QrTokenResp :=
  let (st', td) := getCurrentToken t st
  match td with
  | none => (st', none)
  | some d =>
      match st'.cache with
      | some s => (st', some ⟨d.token, d.session_id, some s.expires_at⟩)
      | none => (st', some ⟨d.token, d.session_id, none⟩)

/-- Route `stop_qr` (`/api/teacher/stop-qr`): the role gate is the only
check; the manager's `stop_session` runs for any teacher. -/
def routeStopQr (role : String) (st : MgrState) : MgrState × Bool :=
  if role = "teacher" then ((stopSession st).1, true) else (st, false)

/-- Route `logout` (`/api/logout`): a teacher logout stops whatever
session is cached. -/
def routeLogout (role : String) (st : MgrState) : MgrState :=
  if role = "teacher" then (stopSession st).1 else st

/-- The `duration` field of a generate-qr request: present and
convertible by `int(...)`, absent, or raising `ValueError`/`TypeError`. -/
inductive DurVal where
  | absent
  | intlike (n : Int)
  | malformed
deriving DecidableEq, Repr

/-- `int(data.get("duration", 60))` guarded by
`except (ValueError, TypeError): duration = 60`. -/
def parseDuration : DurVal → Int
  | .absent => 60
  | .intlike n => n
  | .malformed => 60

/-- One row of the `classes` table. -/
structure ClassRow where
  id : Nat
  class_name : String
  teacher_id : String
  class_code : String
deriving DecidableEq, Repr

/-- Outcome of the `generate_qr` route. -/
inductive GenResp where
  | err (code : Nat)
  | ok (session_id : String) (expires_at : Int)
deriving DecidableEq, Repr

/-- Route `generate_qr` (`/api/teacher/generate-qr`). -/
def generateQr (role uid : String) (duration : DurVal) (class_code : Option String)
    (classes : List ClassRow) (sid : String) (t : Nat) (st : MgrState) :
    MgrState × GenResp :=
  if role ≠ "teacher" then (st, .err 403)
  else
    let dur := parseDuration duration
    match class_code with
    | none => (st, .err 400)
    | some code =>
        if code = "" then (st, .err 400)
        else
          match classes.find? (fun c => c.class_code == code && c.teacher_id == uid) with
          | none => (st, .err 404)
          | some ci =>
              let (st', sess) := startSession ci.id uid dur sid t st
              (st', .ok sess.session_id sess.expires_at)

/-! ### Start/stop sequences (for the per-teacher uniqueness invariant) -/

inductive Op where
  | start (class_id : Nat) (teacher_id : String) (duration_minutes : Int)
          (sid : String) (t : Nat)
  | stop

def applyOp (st : MgrState) : Op → MgrState
  | .start c tid d sid t => (startSession c tid d sid t st).1
  | .stop => (stopSession st).1

def run (st : MgrState) (ops : List Op) : MgrState := ops.foldl applyOp st

/-- Number of `is_active` rows of teacher `tid`. -/
def activeCount (store : List Row) (tid : String) : Nat :=
  store.countP (fun r => r.teacher_id == tid && r.is_active)

/-! ### Attendance check-then-insert of `scan_qr`, with interleaving -/

/-- The key of the `attendance` table's UNIQUE constraint. -/
structure Mark where
  student_id : String
  class_id : Nat
  attendance_date : String
deriving DecidableEq, Repr

/-- The `SELECT 1 FROM attendance WHERE ...` pre-check. -/
def hasMark (db : List Mark) (m : Mark) : Bool :=
  db.any (fun r => r == m)

/-- The `INSERT INTO attendance ...`: `none` models the UNIQUE
constraint firing (`sqlite3.IntegrityError`). -/
def insertMark (db : List Mark) (m : Mark) : Option (List Mark) :=
  if hasMark db m then none else some (db ++ [m])

/-- HTTP outcome of the post-validation part of `scan_qr`:
200 Recorded, 409 AlreadyMarked, or 500 after `except sqlite3.Error`. -/
inductive ScanOutcome where
  | recorded
  | alreadyMarked
  | storeError
deriving DecidableEq, Repr

/-- Program counter of one `scan_qr` request between its two SQL
statements (each statement is atomic in SQLite). -/
inductive ThreadPc where
  | start
  | checked (found : Bool)
  | done (o : ScanOutcome)
deriving DecidableEq, Repr

/-- One atomic step of a `scan_qr` request on the shared table. -/
def threadStep (db : List Mark) (m : Mark) : ThreadPc → List Mark × ThreadPc
  | .start => (db, .checked (hasMark db m))
  | .checked found =>
      if found then (db, .done .alreadyMarked)
      else
        match insertMark db m with
        | some db2 => (db2, .done .recorded)
        | none => (db, .done .storeError)
  | .done o => (db, .done o)

/-- Two concurrent `scan_qr` requests for the same mark. -/
structure ScanSys where
  db : List Mark
  tA : ThreadPc
  tB : ThreadPc
deriving DecidableEq, Repr

/-- Advance thread B when `who`, else thread A. -/
def sysStep (m : Mark) (s : ScanSys) (who : Bool) : ScanSys :=
  if who then
    let (db2, pc) := threadStep s.db m s.tB
    { s with db := db2, tB := pc }
  else
    let (db2, pc) := threadStep s.db m s.tA
    { s with db := db2, tA := pc }

/-- Run a schedule (list of thread choices) from an empty table with
both requests at their first statement. -/
def runSched (m : Mark) (sched : List Bool) : ScanSys :=
  sched.foldl (sysStep m) ⟨[], .start, .start⟩

/-! ### Theorems -/

/-- C2: the derived token is the first 16 hex characters of the SHA-256
digest of the UTF-8 bytes of `sessionId ++ ":" ++ window` (window in
decimal); in particular the token for session "abc" at window 100 is
SHA-256("abc:100") truncated to 16 hex characters.  Determinism is
inherent: `deriveToken` is a function of `(sid, w)`. -/
theorem deriveToken_spec :
    deriveToken "abc" 100 = "0cf5f9f747568d2c" ∧
    ∀ (sid : String) (w : Int),
      deriveToken sid w = (sha256hex (strBytes (sid ++ ":" ++ toString w))).take 16 :=
  ⟨by decide, fun _ _ => rfl⟩

/-- C5: `stop()` is idempotent: on a manager with no active session it
performs no store write and leaves the state unchanged while still
returning success, and from any state it ends with no active session. -/
theorem stopSession_idempotent :
    (∀ st : MgrState, st.cache = none → stopSession st = (st, true)) ∧
    (∀ st : MgrState, (stopSession st).1.cache = none ∧ (stopSession st).2 = true) := by
  constructor
  · intro st h
    cases st with
    | mk store cache =>
        cases cache with
        | none => simp [stopSession]
        | some s => simp at h
  · intro st
    cases st with
    | mk store cache => cases cache <;> simp [stopSession]

theorem stopSession_idempotent_witness :
    stopSession initState = (initState, true) :=
  stopSession_idempotent.1 initState rfl

/-- C6: `validate` returns `false` (a total boolean result) whenever
there is no active session after the lazy refresh, or whenever the
submitted session id differs from the cached one. -/
theorem validateToken_fails_closed (t : Nat) (tok sid : String) (st : MgrState) :
    ((ensureSessionIsActive t st).cache = none →
      (validateToken t tok sid st).2 = false) ∧
    (∀ s : Session, (ensureSessionIsActive t st).cache = some s →
      sid ≠ s.session_id → (validateToken t tok sid st).2 = false) := by
  constructor
  · intro h
    simp [validateToken, h]
  · intro s hs hne
    simp [validateToken, hs]
    rw [if_neg (fun heq => hne heq.symm)]

theorem validateToken_fails_closed_witness :
    (validateToken 0 "deadbeefdeadbeef" "sess-x" initState).2 = false :=
  (validateToken_fails_closed 0 "deadbeefdeadbeef" "sess-x" initState).1 (by decide)

/-- C7: whenever a non-expired active session is cached after the lazy
refresh, the `/api/qr-token` route returns all three of the token, the
session id and the session's `expires_at`; with no active session it
returns none. -/
theorem currentToken_fields (t : Nat) (st : MgrState) :
    ((ensureSessionIsActive t st).cache = none → (routeGetQrToken t st).2 = none) ∧
    (∀ s : Session, (ensureSessionIsActive t st).cache = some s →
      (t : Int) < s.expires_at →
      (routeGetQrToken t st).2 =
        some ⟨deriveToken s.session_id (window t), s.session_id, some s.expires_at⟩) := by
  constructor
  · intro h
    simp [routeGetQrToken, getCurrentToken, h]
  · intro s hs _
    simp [routeGetQrToken, getCurrentToken, hs]

theorem currentToken_fields_witness :
    (routeGetQrToken 100 ⟨[⟨"abc", 1, "t1", 3600, true⟩], some ⟨"abc", 1, "t1", 3600⟩⟩).2 =
      some ⟨deriveToken "abc" (window 100), "abc", some 3600⟩ :=
  (currentToken_fields 100 _).2 ⟨"abc", 1, "t1", 3600⟩ (by decide) (by decide)

/-- C4 (divergence witness): a session started at `T = 0` with the
60-minute duration has `expires_at = 3600`; `get_current_token` at
`t = 3599` returns a token, but at `t = 3601` the reload only
deactivates the store row while leaving the expired dict in
`active_session`, so a token is still returned instead of none. -/
theorem expired_cache_still_issues_tokens :
    ((getCurrentToken 3599 (startSession 1 "t1" 60 "s1" 0 initState).1).2 =
      some ⟨deriveToken "s1" 119, "s1"⟩) ∧
    ((getCurrentToken 3601 (startSession 1 "t1" 60 "s1" 0 initState).1).2).isSome = true ∧
    (∀ r ∈ (getCurrentToken 3601 (startSession 1 "t1" 60 "s1" 0 initState).1).1.store,
      r.is_active = false) := by
  decide

/-- The manager state is untouched by the lazy refresh while the cached
session is unexpired. -/
theorem ensure_fresh_of_unexpired (st : MgrState) (s : Session) (u : Nat)
    (hc : st.cache = some s) (hu : (u : Int) < s.expires_at) :
    ensureSessionIsActive u st = st := by
  simp only [ensureSessionIsActive, hc]
  exact if_neg (not_le.mpr hu)

/-- C1: for an unexpired cached session, a token issued at time `t`
validates at time `t'` exactly when `t'` maps to the issuing window or
its successor.  `validate` accepts exactly the derived tokens of the
current and immediately preceding window; collision-freeness of the
truncated hash on the windows involved is the hypothesis that turns
that into the window condition. -/
theorem token_window_validation (st : MgrState) (s : Session) (t t' : Nat)
    (hc : st.cache = some s)
    (ht : (t : Int) < s.expires_at)
    (ht' : (t' : Int) < s.expires_at)
    (h1 : t' / 30 ≠ t / 30 →
      deriveToken s.session_id (window t') ≠ deriveToken s.session_id (window t))
    (h2 : window t' - 1 ≠ window t →
      deriveToken s.session_id (window t' - 1) ≠ deriveToken s.session_id (window t)) :
    (getCurrentToken t st).2 = some ⟨deriveToken s.session_id (window t), s.session_id⟩ ∧
    (∀ tok : String, ((validateToken t' tok s.session_id st).2 = true ↔
      (tok = deriveToken s.session_id (window t') ∨
        tok = deriveToken s.session_id (window t' - 1)))) ∧
    ((validateToken t' (deriveToken s.session_id (window t)) s.session_id st).2 = true ↔
      (t' / 30 = t / 30 ∨ t' / 30 = t / 30 + 1)) := by
  have hval : ∀ tok : String, ((validateToken t' tok s.session_id st).2 = true ↔
      (tok = deriveToken s.session_id (window t') ∨
        tok = deriveToken s.session_id (window t' - 1))) := by
    intro tok
    simp [validateToken, ensure_fresh_of_unexpired st s t' hc ht', hc]
  refine ⟨?_, hval, ?_⟩
  · simp [getCurrentToken, ensure_fresh_of_unexpired st s t hc ht, hc]
  · rw [hval (deriveToken s.session_id (window t))]
    constructor
    · rintro (h | h)
      · left
        by_contra hne
        exact h1 hne h.symm
      · right
        by_contra hne
        have hne2 : window t' - 1 ≠ window t := by
          intro he
          apply hne
          unfold window at he
          omega
        exact h2 hne2 h.symm
    · rintro (h | h)
      · left
        have hw : window t' = window t := by unfold window; rw [h]
        rw [hw]
      · right
        have hw : window t' - 1 = window t := by unfold window; omega
        rw [hw]

theorem token_window_validation_witness :
    (validateToken 3000 (deriveToken "abc" (window 3000)) "abc"
        ⟨[], some ⟨"abc", 1, "t1", 10000⟩⟩).2 = true :=
  ((token_window_validation ⟨[], some ⟨"abc", 1, "t1", 10000⟩⟩ ⟨"abc", 1, "t1", 10000⟩
      3000 3000 rfl (by decide) (by decide) (by decide) (by decide)).2.2).mpr
    (Or.inl rfl)

/-- Rows matching a deactivated session id come out inactive. -/
theorem mem_deactivateSid_inactive (sid : String) (store : List Row) :
    ∀ r ∈ deactivateSid sid store, r.session_id = sid → r.is_active = false := by
  intro r hr hsid
  simp only [deactivateSid, List.mem_map] at hr
  obtain ⟨r', hr', heq⟩ := hr
  by_cases hcond : r'.session_id = sid
  · rw [if_pos hcond] at heq
    rw [← heq]
  · rw [if_neg hcond] at heq
    rw [← heq] at hsid
    exact absurd hsid hcond

/-- C9: `stop` — through the stop-qr route or the implicit stop on
teacher logout — deactivates whichever session is cached, whoever its
owner is, and empties the process-wide cache. -/
theorem stop_evicts_any_teacher (st : MgrState) (s : Session) (h : st.cache = some s) :
    ((routeStopQr "teacher" st).1.cache = none ∧
      ∀ r ∈ (routeStopQr "teacher" st).1.store,
        r.session_id = s.session_id → r.is_active = false) ∧
    ((routeLogout "teacher" st).cache = none ∧
      ∀ r ∈ (routeLogout "teacher" st).store,
        r.session_id = s.session_id → r.is_active = false) := by
  have hstop : (stopSession st).1 =
      { store := deactivateSid s.session_id st.store, cache := none } := by
    simp [stopSession, h]
  refine ⟨⟨?_, ?_⟩, ?_, ?_⟩
  · simp [routeStopQr, hstop]
  · intro r hr
    simp only [routeStopQr, if_pos rfl, hstop] at hr
    exact mem_deactivateSid_inactive s.session_id st.store r hr
  · simp [routeLogout, hstop]
  · intro r hr
    simp only [routeLogout, if_pos rfl, hstop] at hr
    exact mem_deactivateSid_inactive s.session_id st.store r hr

theorem stop_evicts_any_teacher_witness :
    (routeStopQr "teacher"
        ⟨[⟨"sX", 2, "owner", 9999, true⟩], some ⟨"sX", 2, "owner", 9999⟩⟩).1.cache
      = none :=
  ((stop_evicts_any_teacher _ ⟨"sX", 2, "owner", 9999⟩ rfl).1).1

/-- C10: a generate-qr request whose `duration` is absent or not
convertible by `int(...)` is not rejected: it behaves exactly like a
request with duration 60, and the session expires 3600 seconds after
start. -/
theorem malformed_duration_defaults (uid code : String) (classes : List ClassRow)
    (ci : ClassRow) (sid : String) (t : Nat) (st : MgrState)
    (hcode : code ≠ "")
    (hfind : classes.find? (fun c => c.class_code == code && c.teacher_id == uid)
      = some ci) :
    generateQr "teacher" uid .absent (some code) classes sid t st
      = generateQr "teacher" uid (.intlike 60) (some code) classes sid t st ∧
    generateQr "teacher" uid .malformed (some code) classes sid t st
      = generateQr "teacher" uid (.intlike 60) (some code) classes sid t st ∧
    (generateQr "teacher" uid .absent (some code) classes sid t st).2
      = .ok sid ((t : Int) + 3600) := by
  refine ⟨rfl, rfl, ?_⟩
  simp [generateQr, hcode, hfind, startSession, parseDuration]

theorem malformed_duration_defaults_witness :
    (generateQr "teacher" "t1" .malformed (some "CS101")
        [⟨1, "Computer Science 101", "t1", "CS101"⟩] "s9" 50 initState).2
      = .ok "s9" (((50 : Nat) : Int) + 3600) := by
  have T := malformed_duration_defaults "t1" "CS101"
      [⟨1, "Computer Science 101", "t1", "CS101"⟩]
      ⟨1, "Computer Science 101", "t1", "CS101"⟩ "s9" 50 initState
      (by decide) (by decide)
  rw [T.2.1, ← T.1]
  exact T.2.2

/-- C8 (divergence witness): with two concurrent `scan_qr` requests for
the same (student, class, date), the schedule in which both `SELECT`
pre-checks run before either `INSERT` leaves one request Recorded and
the other with a 500 store error (the UNIQUE violation caught by
`except sqlite3.Error`), not AlreadyMarked; the table still gains only
one row.  Under the serial schedule the loser does get AlreadyMarked. -/
theorem concurrent_scan_race :
    ((runSched ⟨"2024001", 1, "2026-10-12"⟩ [false, true, false, true]).tA =
        .done .recorded ∧
      (runSched ⟨"2024001", 1, "2026-10-12"⟩ [false, true, false, true]).tB =
        .done .storeError ∧
      (runSched ⟨"2024001", 1, "2026-10-12"⟩ [false, true, false, true]).db =
        [⟨"2024001", 1, "2026-10-12"⟩]) ∧
    ((runSched ⟨"2024001", 1, "2026-10-12"⟩ [false, false, true, true]).tA =
        .done .recorded ∧
      (runSched ⟨"2024001", 1, "2026-10-12"⟩ [false, false, true, true]).tB =
        .done .alreadyMarked) := by
  decide

/-! ### Per-teacher uniqueness of the active row (C3) -/

/-- After deactivating a teacher's rows, that teacher has no active row. -/
theorem activeCount_deactivateForTeacher_self (tid : String) (store : List Row) :
    activeCount (deactivateForTeacher tid store) tid = 0 := by
  unfold activeCount deactivateForTeacher
  rw [List.countP_map, List.countP_eq_zero]
  intro r _
  simp only [Function.comp_apply]
  by_cases h1 : r.teacher_id = tid
  · by_cases h2 : r.is_active = true
    · simp [h1, h2]
    · simp [h1, h2]
  · simp [h1]

/-- Deactivating one teacher's rows leaves other teachers' counts. -/
theorem activeCount_deactivateForTeacher_other (tid u : String) (h : u ≠ tid)
    (store : List Row) :
    activeCount (deactivateForTeacher tid store) u = activeCount store u := by
  unfold activeCount deactivateForTeacher
  rw [List.countP_map]
  apply List.countP_congr
  intro r _
  simp only [Function.comp_apply]
  by_cases h1 : r.teacher_id = tid ∧ r.is_active = true
  · simp [h1, h1.1, Ne.symm h]
  · simp [h1]

/-- Deactivating a session id never increases any teacher's count. -/
theorem activeCount_deactivateSid_le (sid : String) (store : List Row) (u : String) :
    activeCount (deactivateSid sid store) u ≤ activeCount store u := by
  unfold activeCount deactivateSid
  rw [List.countP_map]
  apply List.countP_mono_left
  intro r _ hp
  simp only [Function.comp_apply] at hp
  by_cases h1 : r.session_id = sid
  · simp [h1] at hp
  · simpa [h1] using hp

/-- `start_session` leaves the starting teacher with exactly one active
row and does not touch other teachers' counts. -/
theorem activeCount_startSession (c : Nat) (tid : String) (d : Int) (sid : String)
    (t : Nat) (st : MgrState) (u : String) :
    activeCount (startSession c tid d sid t st).1.store u
      = if u = tid then 1 else activeCount st.store u := by
  show activeCount (deactivateForTeacher tid st.store
      ++ [⟨sid, c, tid, (t : Int) + d * 60, true⟩]) u = _
  unfold activeCount
  rw [List.countP_append]
  by_cases hu : u = tid
  · subst hu
    rw [if_pos rfl]
    have h0 := activeCount_deactivateForTeacher_self u st.store
    unfold activeCount at h0
    rw [h0]
    simp [List.countP_cons]
  · rw [if_neg hu]
    have ho := activeCount_deactivateForTeacher_other tid u hu st.store
    unfold activeCount at ho
    rw [ho]
    simp [List.countP_cons, Ne.symm hu]

/-- Every start/stop step preserves "at most one active row per
teacher". -/
theorem applyOp_activeCount_le (st : MgrState) (h : ∀ u, activeCount st.store u ≤ 1)
    (op : Op) : ∀ u, activeCount (applyOp st op).store u ≤ 1 := by
  intro u
  cases op with
  | start c tid d sid t =>
      show activeCount (startSession c tid d sid t st).1.store u ≤ 1
      rw [activeCount_startSession]
      by_cases hu : u = tid
      · simp [hu]
      · simpa [hu] using h u
  | stop =>
      show activeCount (stopSession st).1.store u ≤ 1
      cases hcache : st.cache with
      | none => simpa [stopSession, hcache] using h u
      | some s =>
          simp only [stopSession, hcache]
          exact le_trans (activeCount_deactivateSid_le s.session_id st.store u) (h u)

theorem run_activeCount_le (ops : List Op) :
    ∀ st : MgrState, (∀ u, activeCount st.store u ≤ 1) →
      ∀ u, activeCount (run st ops).store u ≤ 1 := by
  induction ops with
  | nil => intro st h u; exact h u
  | cons op rest ih =>
      intro st h u
      show activeCount (List.foldl applyOp (applyOp st op) rest).store u ≤ 1
      exact ih (applyOp st op) (applyOp_activeCount_le st h op) u

/-- Session and teacher ids survive `deactivateForTeacher`. -/
theorem mem_deactivateForTeacher_ids (tid : String) (store : List Row) (r : Row)
    (hr : r ∈ deactivateForTeacher tid store) :
    ∃ r' ∈ store, r.session_id = r'.session_id ∧ r.teacher_id = r'.teacher_id := by
  simp only [deactivateForTeacher, List.mem_map] at hr
  obtain ⟨r', hr', heq⟩ := hr
  by_cases hcond : r'.teacher_id = tid ∧ r'.is_active = true
  · rw [if_pos hcond] at heq
    exact ⟨r', hr', by rw [← heq], by rw [← heq]⟩
  · rw [if_neg hcond] at heq
    exact ⟨r', hr', by rw [← heq], by rw [← heq]⟩

/-- After `deactivateForTeacher tid`, every row of teacher `tid` is
inactive. -/
theorem mem_deactivateForTeacher_inactive (tid : String) (store : List Row) (r : Row)
    (hr : r ∈ deactivateForTeacher tid store) (ht : r.teacher_id = tid) :
    r.is_active = false := by
  simp only [deactivateForTeacher, List.mem_map] at hr
  obtain ⟨r', hr', heq⟩ := hr
  by_cases hcond : r'.teacher_id = tid ∧ r'.is_active = true
  · rw [if_pos hcond] at heq
    rw [← heq]
  · rw [if_neg hcond] at heq
    rw [← heq] at ht ⊢
    rcases Bool.eq_false_or_eq_true r'.is_active with hb | hb
    · exact absurd ⟨ht, hb⟩ hcond
    · exact hb

/-- C3: along any start/stop sequence the store keeps at most one
active row per teacher; starting twice for the same teacher leaves
exactly one active row, the first session having been deactivated. -/
theorem one_active_session_per_teacher :
    (∀ (ops : List Op) (u : String), activeCount (run initState ops).store u ≤ 1) ∧
    (∀ (st : MgrState) (c₁ c₂ : Nat) (tid : String) (d₁ d₂ : Int)
      (sid₁ sid₂ : String) (t₁ t₂ : Nat),
      sid₁ ≠ sid₂ → (∀ r ∈ st.store, r.session_id ≠ sid₁) →
      activeCount ((startSession c₂ tid d₂ sid₂ t₂
          (startSession c₁ tid d₁ sid₁ t₁ st).1).1).store tid = 1 ∧
      ∀ r ∈ ((startSession c₂ tid d₂ sid₂ t₂
          (startSession c₁ tid d₁ sid₁ t₁ st).1).1).store,
        r.session_id = sid₁ → r.is_active = false) := by
  constructor
  · intro ops u
    exact run_activeCount_le ops initState (fun u => by simp [initState, activeCount]) u
  · intro st c₁ c₂ tid d₁ d₂ sid₁ sid₂ t₁ t₂ hne hfresh
    constructor
    · rw [activeCount_startSession]
      simp
    · intro r hr hsid
      have hr2 : r ∈ deactivateForTeacher tid
            ((startSession c₁ tid d₁ sid₁ t₁ st).1.store)
          ++ [⟨sid₂, c₂, tid, (t₂ : Int) + d₂ * 60, true⟩] := hr
      rw [List.mem_append] at hr2
      rcases hr2 with hA | hB
      · obtain ⟨r', hr', hs, hteq⟩ := mem_deactivateForTeacher_ids _ _ r hA
        have hr'2 : r' ∈ deactivateForTeacher tid st.store
            ++ [⟨sid₁, c₁, tid, (t₁ : Int) + d₁ * 60, true⟩] := hr'
        rw [List.mem_append] at hr'2
        rcases hr'2 with hY | hrow1
        · obtain ⟨r'', hr'', hs2, _⟩ := mem_deactivateForTeacher_ids _ _ r' hY
          exact absurd (by rw [← hs2, ← hs]; exact hsid) (hfresh r'' hr'')
        · simp only [List.mem_singleton] at hrow1
          subst hrow1
          exact mem_deactivateForTeacher_inactive _ _ r hA hteq
      · simp only [List.mem_singleton] at hB
        subst hB
        exact absurd hsid.symm hne

theorem one_active_session_per_teacher_witness :
    activeCount ((startSession 1 "t1" 60 "s2" 5
        (startSession 1 "t1" 60 "s1" 0 initState).1).1).store "t1" = 1 :=
  (one_active_session_per_teacher.2 initState 1 1 "t1" 60 60 "s1" "s2" 0 5
    (by decide) (by decide)).1

end App
